import Mathlib

/-!
# Verification of the model-deployment pipeline notebook

Shallow embedding of `deploy/deploy-model.ipynb`.  The notebook is a linear
sequence of cells executed top to bottom ("Run All" semantics): a cell that
raises a Python exception stops the run there; shell escapes (`!cmd`) and
`os.popen` never raise on a failing command, so their failures do not stop
the run.

The embedding models:
* cell-4  — the four configuration constants;
* cell-6  — artifact selection `sorted(os.listdir(MODEL_REPOSITORY))[-1]`
            and the artifact copy `os.popen(f'cp {latest_model} ...')`;
* cell-8  — the `.env` write (`open(..., 'w')` truncates, then two
            `writelines` calls);
* cell-12 — the docker build call (argument record; success/failure is an
            environment input, `docker.errors.BuildError` raises);
* cell-14 — `docker_client.images.push(image_tag)`: with the default
            `stream=False` this returns the server log as a string and does
            not raise when the push itself fails (auth or network errors are
            reported inside the log), so the run continues regardless;
* cell-16 — `!helm install <chart> --set ...` (helm 2: a fresh generated
            release name, a new release per invocation; the `!` escape
            discards the exit status);
* cell-18 — `!minikube service list` (prints; output is never parsed);
* cell-20 — `!curl <hardcoded url> --request POST --header ... --data ...`
            (prints the response; exit status and body are never inspected).
-/

/-- cell-4: `MODEL_REPOSITORY = '../models'`. -/
def MODEL_REPOSITORY : String := "../models"

/-- cell-4: `SERVICE_NAME = 'titanic'`. -/
def SERVICE_NAME : String := "titanic"

/-- cell-4: `API_VERSION = '1'`. -/
def API_VERSION : String := "1"

/-- cell-4: `DOCKER_IMAGE_REGISTRY = 'alexioannides'`. -/
def DOCKER_IMAGE_REGISTRY : String := "alexioannides"

/-- cell-12: `image_tag = f'\x7bDOCKER_IMAGE_REGISTRY\x7d/\x7bSERVICE_NAME\x7d:latest'`. -/
def image_tag : String := DOCKER_IMAGE_REGISTRY ++ "/" ++ SERVICE_NAME ++ ":latest"

/-- Python `sorted` on a list of strings: stable sort by the lexicographic
string order (Lean's `String` order is the same code-point lexicographic
order Python uses). -/
def pySorted (l : List String) : List String := l.mergeSort (fun a b => a ≤ b)

/-- cell-6, first line: `latest_model = sorted(os.listdir(MODEL_REPOSITORY))[-1]`.
`os.listdir` yields the repository's entry names in arbitrary order; `[-1]`
is the last element of the sorted list.  On an empty listing Python raises
`IndexError` (modelled as `none`). -/
def latest_model (listing : List String) : Option String := (pySorted listing).getLast?

/-- File-manipulation commands a copy step can shell out to. -/
inductive ShellOp where
  | copyFile (src dst : String)
  | removeFile (path : String)
  | renameFile (src dst : String)
  deriving DecidableEq, Repr

/-- cell-6: the fixed copy destination `deploy/py-sklearn-flask-ml-service/model.joblib`. -/
def model_dest : String := "deploy/py-sklearn-flask-ml-service/model.joblib"

/-- cell-6, second line: the command handed to `os.popen`,
`f'cp \x7blatest_model\x7d deploy/py-sklearn-flask-ml-service/model.joblib'`.
Note the source operand is the bare entry name, not a path under
`MODEL_REPOSITORY`. -/
def cp_command (m : String) : String := "cp " ++ m ++ " " ++ model_dest

/-- cell-6, second line, as file operations: a single plain copy.  `os.popen`
spawns the command and the notebook neither waits for it nor reads its exit
status. -/
def copy_model_ops (m : String) : List ShellOp := [ShellOp.copyFile m model_dest]

/-- The path of entry `m` inside the artifact repository. -/
def repoPathOf (m : String) : String := MODEL_REPOSITORY ++ "/" ++ m

/-- The claim's notion of an atomic replace, for comparison with
`copy_model_ops`: either remove-then-copy, or copy-to-temp-then-rename. -/
def atomicReplaceOps (src dst : String) (ops : List ShellOp) : Prop :=
  ops = [ShellOp.removeFile dst, ShellOp.copyFile src dst] ∨
  ∃ tmp, ops = [ShellOp.copyFile src tmp, ShellOp.renameFile tmp dst]

/-- cell-8: the two lines written by the `writelines` calls,
`f'SERVICE_NAME=\x7bSERVICE_NAME\x7d\n'` and `f'API_VERSION=\x7bAPI_VERSION\x7d\n'`. -/
def env_file_lines (service api : String) : List String :=
  ["SERVICE_NAME=" ++ service ++ "\n", "API_VERSION=" ++ api ++ "\n"]

/-- cell-8: contents of `py-sklearn-flask-ml-service/.env` after the cell.
`open(..., 'w')` truncates the file before writing, so the prior contents
(`prior`, possibly from an earlier run) never reach the result. -/
def write_env_file (prior : String) (service api : String) : String :=
  let _ := prior
  String.join (env_file_lines service api)

/-- cell-12: the keyword arguments of `docker_client.images.build(...)`. -/
structure BuildArgs where
  path : String
  tag : String
  rm : Bool
  deriving DecidableEq, Repr

/-- cell-12: `images.build(path='py-sklearn-flask-ml-service', tag=image_tag, rm=True)`. -/
def build_args : BuildArgs := { path := "py-sklearn-flask-ml-service", tag := image_tag, rm := true }

/-- Outcome of a registry push as reported inside the docker daemon's log
stream: a confirmed digest, or an error entry. -/
inductive PushResult where
  | acknowledged (digest : String)
  | authFailure (detail : String)
  | networkFailure (detail : String)
  deriving DecidableEq, Repr

/-- cell-16: the values passed to `helm install`. -/
structure HelmArgs where
  chart : String
  appName : String
  appNamespace : String
  appImage : String
  deriving DecidableEq, Repr

/-- cell-16: `!helm install k8s-helm-ml-prediction-app --set app.name=...
--set app.namespace=... --set app.image=...` with the IPython `$`-expanded
Python variables.  No release name and no `upgrade` subcommand appear. -/
def helm_install_args : HelmArgs :=
  { chart := "k8s-helm-ml-prediction-app"
    appName := SERVICE_NAME ++ "-survival-prediction"
    appNamespace := SERVICE_NAME
    appImage := image_tag }

/-- A helm release installed on the cluster (environment state). -/
structure HelmRelease where
  releaseName : String
  appName : String
  appNamespace : String
  appImage : String
  deriving DecidableEq, Repr

/-- Environment model of helm 2 `helm install <chart> --set ...` (no release
name given): the tool generates a fresh release name (cell-16's sample output
shows `newbie-stingray`) and installs a NEW release alongside the existing
ones; `helm install` never updates an existing release in place (that is
`helm upgrade`, which the notebook does not use). -/
def helm_install (cluster : List HelmRelease) (freshName : String) (args : HelmArgs) :
    List HelmRelease :=
  cluster ++ [{ releaseName := freshName
                appName := args.appName
                appNamespace := args.appNamespace
                appImage := args.appImage }]

/-- cell-16 as a state transformer on the cluster's release list. -/
def deploy_stage (cluster : List HelmRelease) (freshName : String) : List HelmRelease :=
  helm_install cluster freshName helm_install_args

/-- The releases whose application name and namespace match the given pair. -/
def releasesFor (cluster : List HelmRelease) (app ns : String) : List HelmRelease :=
  cluster.filter (fun r => r.appName == app && r.appNamespace == ns)

/-- cell-20: the hardcoded verification URL.  It is a literal in the curl
command; nothing read back from cell-16 or cell-18 flows into it. -/
def verify_url : String := "http://192.168.99.115:31187/titanic/v1/predict"

/-- cell-20: the literal `--data` payload of the curl command (including the
run of spaces the notebook's line continuation leaves inside the string). -/
def sample_payload : String :=
  "\x7b\"Pclass\": [1], \"Sex\": [\"male\"], \"Age\": [32], \"SibSp\": [1],                      \"Parch\": [0], \"Fare\": [100], \"Embarked\": [\"S\"]\x7d"

/-- Result of the verification HTTP request, as the environment produces it. -/
inductive HttpResult where
  | connectionFailure
  | response (status : Nat) (body : String)
  deriving DecidableEq, Repr

/-- Whether `sub` occurs as a contiguous run inside `l`. -/
def hasSubList (sub : List Char) : List Char → Bool
  | [] => sub.isEmpty
  | c :: rest => sub.isPrefixOf (c :: rest) || hasSubList sub rest

/-- Whether a response body contains the `prediction` key (used only to state
claims; the notebook itself never inspects the body). -/
def hasPredictionKey (body : String) : Bool :=
  hasSubList "\"prediction\"".data body.data

/-- cell-20: what the `!curl` escape prints — the raw response body, or
curl's connection-error text.  Nothing else is done with the response. -/
def curl_output : HttpResult → String
  | HttpResult.connectionFailure => "curl: (7) Failed to connect"
  | HttpResult.response _ body => body

/-- The six pipeline stages of the spec, mapped onto the notebook's cells:
Selecting = cell-6, Configuring = cell-8, Building = cell-12,
Publishing = cell-14, Deploying = cell-16, Verifying = cell-18/cell-20. -/
inductive Stage where
  | selecting
  | configuring
  | building
  | publishing
  | deploying
  | verifying
  deriving DecidableEq, Repr

/-- Position of a stage in the notebook's cell order. -/
def stageIndex : Stage → Nat
  | Stage.selecting => 0
  | Stage.configuring => 1
  | Stage.building => 2
  | Stage.publishing => 3
  | Stage.deploying => 4
  | Stage.verifying => 5

/-- All six stages in notebook order. -/
def all_stages : List Stage :=
  [Stage.selecting, Stage.configuring, Stage.building,
   Stage.publishing, Stage.deploying, Stage.verifying]

/-- Error kinds: the Python exceptions the notebook's calls can actually
raise (`IndexError` from `[-1]` on an empty sorted listing, `IOError` from
`open(..., 'w')`, `docker.errors.BuildError` from `images.build`), together
with the spec's error taxonomy, so that statements can compare the two.  The
notebook never constructs any of the spec's error kinds. -/
inductive ErrKind where
  | indexError
  | ioError
  | buildError
  | notFoundError
  | publishError
  | readinessTimeoutError
  | verificationError
  deriving DecidableEq, Repr

/-- The environment one notebook run executes against: the repository
listing, the success or failure of each external tool, and the cluster
state.  Fields the notebook never reads (`cpExit`, `localDigest`,
`becomesReady`, `reportedEndpoint`) are included precisely so that theorems
can state that the run ignores them. -/
structure Env where
  repoListing : List String
  cpExit : Bool
  envWritable : Bool
  buildOk : Bool
  localDigest : String
  pushResult : PushResult
  cluster : List HelmRelease
  freshReleaseName : String
  helmExit : Bool
  becomesReady : Bool
  reportedEndpoint : String
  httpResult : HttpResult
  deriving Repr

/-- Observable outcome of one top-to-bottom run of the notebook. -/
structure RunTrace where
  attempted : List Stage
  halt : Option (Stage × ErrKind)
  envFileWritten : Bool
  pushAttempts : Nat
  clusterAfter : List HelmRelease
  requestURL : Option String
  requestBody : Option String
  deriving DecidableEq, Repr

/-- One "Run All" execution of the notebook over environment `env`.

Control flow is exactly the notebook's: a cell that raises stops the run
(`IndexError` when the repository listing is empty, an I/O error when the
`.env` destination is not writable, `BuildError` when the docker build
fails).  Everything else cannot stop it: the `cp` runs under `os.popen`
with no wait and no status check; `images.push` returns its log string and
raises nothing when the push fails; `!helm`, `!minikube` and `!curl`
discard the exit status; the curl response is printed, never validated.
There is no retry anywhere and no readiness poll: `images.push` is called
exactly once, and nothing between cell-16 and cell-20 waits on or reads the
deployment's readiness. -/
def run_pipeline (env : Env) : RunTrace :=
  if (latest_model env.repoListing).isNone then
    { attempted := [Stage.selecting]
      halt := some (Stage.selecting, ErrKind.indexError)
      envFileWritten := false
      pushAttempts := 0
      clusterAfter := env.cluster
      requestURL := none
      requestBody := none }
  else if env.envWritable = false then
    { attempted := [Stage.selecting, Stage.configuring]
      halt := some (Stage.configuring, ErrKind.ioError)
      envFileWritten := false
      pushAttempts := 0
      clusterAfter := env.cluster
      requestURL := none
      requestBody := none }
  else if env.buildOk = false then
    { attempted := [Stage.selecting, Stage.configuring, Stage.building]
      halt := some (Stage.building, ErrKind.buildError)
      envFileWritten := true
      pushAttempts := 0
      clusterAfter := env.cluster
      requestURL := none
      requestBody := none }
  else
    { attempted := all_stages
      halt := none
      envFileWritten := true
      pushAttempts := 1
      clusterAfter := deploy_stage env.cluster env.freshReleaseName
      requestURL := some verify_url
      requestBody := some sample_payload }

/-- Which stages fail in a run over `env`, in the sense of the spec's
failure taxonomy (the notebook records no such notion itself): selection
fails on an empty repository or a failed copy; configuration on an
unwritable destination; build when the toolchain fails; publish on an auth
or network failure or a digest mismatch; deploy when helm fails or the
deployment never becomes ready; verify on connection failure, non-success
status, or a body without the `prediction` key. -/
def stage_fails (env : Env) : Stage → Bool
  | Stage.selecting => env.repoListing.isEmpty || !env.cpExit
  | Stage.configuring => !env.envWritable
  | Stage.building => !env.buildOk
  | Stage.publishing =>
      match env.pushResult with
      | PushResult.acknowledged d => d != env.localDigest
      | PushResult.authFailure _ => true
      | PushResult.networkFailure _ => true
  | Stage.deploying => !env.helmExit || !env.becomesReady
  | Stage.verifying =>
      match env.httpResult with
      | HttpResult.connectionFailure => true
      | HttpResult.response status body => status != 200 || !(hasPredictionKey body)

/-- A baseline environment in which every external tool succeeds, taken from
the notebook's recorded sample outputs. -/
def baseEnv : Env :=
  { repoListing := ["titanic-ml-2019-02-11T17:48:28.joblib"]
    cpExit := true
    envWritable := true
    buildOk := true
    localDigest := "sha256:89dadbdb75a1efd9914592daaa6ac5eccbb8c9c1af184a05a3d5ca08b4ef25f3"
    pushResult := PushResult.acknowledged
      "sha256:89dadbdb75a1efd9914592daaa6ac5eccbb8c9c1af184a05a3d5ca08b4ef25f3"
    cluster := []
    freshReleaseName := "newbie-stingray"
    helmExit := true
    becomesReady := true
    reportedEndpoint := "192.168.99.115:31187"
    httpResult := HttpResult.response 200 "\x7b\"prediction\":[1]\x7d" }

/-- `baseEnv` with an empty artifact repository. -/
def emptyRepoEnv : Env := { baseEnv with repoListing := [] }

/-- `baseEnv` with a push that fails on the network. -/
def netFailEnv : Env :=
  { baseEnv with pushResult := PushResult.networkFailure "EOF" }

/-- `baseEnv` with a push rejected for missing credentials. -/
def authFailEnv : Env :=
  { baseEnv with pushResult := PushResult.authFailure "denied: requested access to the resource is denied" }

/-- `baseEnv` with a deployment that never reaches readiness. -/
def neverReadyEnv : Env := { baseEnv with becomesReady := false }

/-- `baseEnv` with a verification response that lacks the `prediction` key. -/
def noKeyEnv : Env :=
  { baseEnv with httpResult := HttpResult.response 200 "\x7b\"detail\": \"not found\"\x7d" }

/-- A cluster that already carries a release for the notebook's application
name and namespace (as one earlier notebook run leaves behind). -/
def busyCluster : List HelmRelease :=
  [{ releaseName := "newbie-stingray"
     appName := "titanic-survival-prediction"
     appNamespace := "titanic"
     appImage := "alexioannides/titanic:latest" }]

/-! ## Helper lemmas about the selector's sort -/

theorem pySorted_perm (l : List String) : (pySorted l).Perm l :=
  List.mergeSort_perm l _

theorem pySorted_sorted (l : List String) : List.Sorted (· ≤ ·) (pySorted l) := by
  have htrans : ∀ a b c : String, (fun a b : String => decide (a ≤ b)) a b = true →
      (fun a b : String => decide (a ≤ b)) b c = true →
      (fun a b : String => decide (a ≤ b)) a c = true := by
    intro a b c hab hbc
    exact decide_eq_true (le_trans (of_decide_eq_true hab) (of_decide_eq_true hbc))
  have htotal : ∀ a b : String, ((fun a b : String => decide (a ≤ b)) a b ||
      (fun a b : String => decide (a ≤ b)) b a) = true := by
    intro a b
    simp only [Bool.or_eq_true, decide_eq_true_eq]
    exact le_total a b
  have h := List.sorted_mergeSort htrans htotal l
  exact h.imp (fun hab => of_decide_eq_true hab)

theorem sorted_getLast_is_max {l : List String} {m : String}
    (hs : List.Sorted (· ≤ ·) l) (hm : l.getLast? = some m) :
    ∀ x ∈ l, x ≤ m := by
  induction l with
  | nil => simp at hm
  | cons a t ih =>
    rcases List.sorted_cons.mp hs with ⟨ha, hst⟩
    cases t with
    | nil =>
      intro x hx
      simp at hm hx
      simp [hx, hm]
    | cons b t2 =>
      have hm2 : (b :: t2).getLast? = some m := by simpa using hm
      intro x hx
      rcases List.mem_cons.mp hx with rfl | hx2
      · exact le_trans (ha b (by simp)) (ih hst hm2 b (by simp))
      · exact ih hst hm2 x hx2

theorem pySorted_eq_nil_iff (l : List String) : pySorted l = [] ↔ l = [] := by
  constructor
  · intro hnil
    have hp := pySorted_perm l
    rw [hnil] at hp
    exact hp.symm.eq_nil
  · intro h
    subst h
    simp [pySorted]

theorem latest_model_eq_none_iff (l : List String) : latest_model l = none ↔ l = [] := by
  unfold latest_model
  rw [List.getLast?_eq_none_iff, pySorted_eq_nil_iff]

/-- C2: for every artifact repository with at least one entry, the selector
returns exactly the entry with the maximum version token (the
timestamp-encoded entry name itself, per the data model), and the choice is
invariant under the arbitrary order in which the directory enumeration
yields the entries, so repeated runs over the same repository select the
same entry. -/
theorem selector_returns_latest (l : List String) (h : l ≠ []) :
    ∃ m, latest_model l = some m ∧ m ∈ l ∧ (∀ x ∈ l, x ≤ m) ∧
      ∀ l₂ : List String, l.Perm l₂ → latest_model l₂ = some m := by
  have hne : pySorted l ≠ [] := fun hnil => h ((pySorted_eq_nil_iff l).mp hnil)
  obtain ⟨m, hm⟩ := Option.isSome_iff_exists.mp (List.getLast?_isSome.mpr hne)
  refine ⟨m, hm, ?_, ?_, ?_⟩
  · exact ((pySorted_perm l).mem_iff).mp (List.mem_of_getLast?_eq_some hm)
  · intro x hx
    exact sorted_getLast_is_max (pySorted_sorted l) hm x (((pySorted_perm l).mem_iff).mpr hx)
  · intro l₂ hperm
    have hsorteq : pySorted l₂ = pySorted l := by
      refine List.eq_of_perm_of_sorted ?_ (pySorted_sorted l₂) (pySorted_sorted l)
      exact (pySorted_perm l₂).trans (hperm.symm.trans (pySorted_perm l).symm)
    unfold latest_model
    rw [hsorteq]
    exact hm

/-- Witness for `selector_returns_latest` at the repository listing the
notebook's sample output records. -/
theorem selector_returns_latest_witness :
    (["titanic-ml-2019-02-11T17:48:28.joblib"] : List String) ≠ [] ∧
    ∃ m, latest_model ["titanic-ml-2019-02-11T17:48:28.joblib"] = some m ∧
      m ∈ (["titanic-ml-2019-02-11T17:48:28.joblib"] : List String) ∧
      (∀ x ∈ (["titanic-ml-2019-02-11T17:48:28.joblib"] : List String), x ≤ m) ∧
      ∀ l₂ : List String, List.Perm ["titanic-ml-2019-02-11T17:48:28.joblib"] l₂ →
        latest_model l₂ = some m :=
  ⟨by simp, selector_returns_latest ["titanic-ml-2019-02-11T17:48:28.joblib"] (by simp)⟩

/-! ## Evaluation lemmas for the four control-flow outcomes of a run -/

theorem run_pipeline_of_empty (env : Env) (h : env.repoListing = []) :
    run_pipeline env =
      { attempted := [Stage.selecting]
        halt := some (Stage.selecting, ErrKind.indexError)
        envFileWritten := false
        pushAttempts := 0
        clusterAfter := env.cluster
        requestURL := none
        requestBody := none } := by
  have h1 : (latest_model env.repoListing).isNone = true := by
    rw [Option.isNone_iff_eq_none, latest_model_eq_none_iff]
    exact h
  simp [run_pipeline, h1]

theorem run_pipeline_of_unwritable (env : Env) (hrepo : env.repoListing ≠ [])
    (hw : env.envWritable = false) :
    run_pipeline env =
      { attempted := [Stage.selecting, Stage.configuring]
        halt := some (Stage.configuring, ErrKind.ioError)
        envFileWritten := false
        pushAttempts := 0
        clusterAfter := env.cluster
        requestURL := none
        requestBody := none } := by
  have h1 : (latest_model env.repoListing).isNone = false := by
    cases hlm : latest_model env.repoListing with
    | none => exact absurd ((latest_model_eq_none_iff _).mp hlm) hrepo
    | some m => simp
  simp [run_pipeline, h1, hw]

theorem run_pipeline_of_buildfail (env : Env) (hrepo : env.repoListing ≠ [])
    (hw : env.envWritable = true) (hb : env.buildOk = false) :
    run_pipeline env =
      { attempted := [Stage.selecting, Stage.configuring, Stage.building]
        halt := some (Stage.building, ErrKind.buildError)
        envFileWritten := true
        pushAttempts := 0
        clusterAfter := env.cluster
        requestURL := none
        requestBody := none } := by
  have h1 : (latest_model env.repoListing).isNone = false := by
    cases hlm : latest_model env.repoListing with
    | none => exact absurd ((latest_model_eq_none_iff _).mp hlm) hrepo
    | some m => simp
  simp [run_pipeline, h1, hw, hb]

theorem run_pipeline_success (env : Env) (hrepo : env.repoListing ≠ [])
    (hw : env.envWritable = true) (hb : env.buildOk = true) :
    run_pipeline env =
      { attempted := all_stages
        halt := none
        envFileWritten := true
        pushAttempts := 1
        clusterAfter := deploy_stage env.cluster env.freshReleaseName
        requestURL := some verify_url
        requestBody := some sample_payload } := by
  have h1 : (latest_model env.repoListing).isNone = false := by
    cases hlm : latest_model env.repoListing with
    | none => exact absurd ((latest_model_eq_none_iff _).mp hlm) hrepo
    | some m => simp
  simp [run_pipeline, h1, hw, hb]

/-- C1 amended: only failures that surface as Python exceptions (empty
repository listing at Selecting, unwritable configuration destination at
Configuring, docker build failure at Building) stop the run, and those do
stop it fail-fast — when the run halts at a stage, every attempted stage is
at or before it.  But the run completes with all six stages attempted
exactly when the repository is non-empty, the configuration is writable and
the build succeeds — the silent failures of the copy, the push, the helm
install, readiness and the smoke test neither halt the run nor prevent any
later stage (see `push_failure_not_fail_fast` for a run that completes with
a failed Publishing stage). -/
theorem run_halts_only_on_raised_exceptions (env : Env) :
    ((run_pipeline env).halt = none → (run_pipeline env).attempted = all_stages) ∧
    (∀ s e, (run_pipeline env).halt = some (s, e) →
      ∀ t ∈ (run_pipeline env).attempted, stageIndex t ≤ stageIndex s) ∧
    ((run_pipeline env).halt = none ↔
      env.repoListing ≠ [] ∧ env.envWritable = true ∧ env.buildOk = true) := by
  by_cases hrepo : env.repoListing = []
  · rw [run_pipeline_of_empty env hrepo]
    refine ⟨(by intro h; cases h), ?_, (by simp [hrepo])⟩
    intro s e hse t ht
    simp at hse ht
    rw [ht, ← hse.1]
  · by_cases hw : env.envWritable = false
    · rw [run_pipeline_of_unwritable env hrepo hw]
      refine ⟨(by intro h; cases h), ?_, (by simp [hw])⟩
      intro s e hse t ht
      simp at hse ht
      rcases ht with ht | ht <;> (rw [ht, ← hse.1]; try simp [stageIndex])
    · by_cases hb : env.buildOk = false
      · rw [run_pipeline_of_buildfail env hrepo (by revert hw; cases env.envWritable <;> simp) hb]
        refine ⟨(by intro h; cases h), ?_, (by simp [hb])⟩
        intro s e hse t ht
        simp at hse ht
        rcases ht with ht | ht | ht <;> (rw [ht, ← hse.1]; try simp [stageIndex])
      · rw [run_pipeline_success env hrepo (by revert hw; cases env.envWritable <;> simp)
          (by revert hb; cases env.buildOk <;> simp)]
        refine ⟨fun _ => rfl, ?_, ?_⟩
        · intro s e hse
          cases hse
        · simp [hrepo]
          constructor <;> revert hw hb <;> cases env.envWritable <;> cases env.buildOk <;> simp

/-- C1 counterexample: in the run over `netFailEnv` the Publishing stage
fails (the push dies on the network), yet the run does not transition to a
failed state — it completes, and both later stages, Deploying and
Verifying, are still attempted. -/
theorem push_failure_not_fail_fast :
    stage_fails netFailEnv Stage.publishing = true ∧
    (run_pipeline netFailEnv).halt = none ∧
    Stage.deploying ∈ (run_pipeline netFailEnv).attempted ∧
    Stage.verifying ∈ (run_pipeline netFailEnv).attempted := by
  have he := run_pipeline_success netFailEnv (by simp [netFailEnv, baseEnv]) rfl rfl
  rw [he]
  refine ⟨rfl, rfl, ?_, ?_⟩ <;> simp [all_stages]

/-- Witness for `run_halts_only_on_raised_exceptions`: applied to the
empty-repository run, whose halt point discharges the hypotheses of the
fail-fast component. -/
theorem run_halts_only_on_raised_exceptions_witness :
    stageIndex Stage.selecting ≤ stageIndex Stage.selecting := by
  have h := (run_halts_only_on_raised_exceptions emptyRepoEnv).2.1
  refine h Stage.selecting ErrKind.indexError ?_ Stage.selecting ?_
  · rw [run_pipeline_of_empty emptyRepoEnv rfl]
  · rw [run_pipeline_of_empty emptyRepoEnv rfl]
    simp

/-- C3 counterexample: on an empty artifact repository the run does halt at
Selecting with nothing written and no build attempted, but the error is
Python's `IndexError` from `sorted([])[-1]`, not a `NotFoundError` — the
notebook never constructs the spec's error taxonomy. -/
theorem empty_repo_raises_indexError_not_notFoundError :
    (run_pipeline emptyRepoEnv).halt = some (Stage.selecting, ErrKind.indexError) ∧
    ErrKind.indexError ≠ ErrKind.notFoundError ∧
    (run_pipeline emptyRepoEnv).envFileWritten = false ∧
    Stage.building ∉ (run_pipeline emptyRepoEnv).attempted := by
  rw [run_pipeline_of_empty emptyRepoEnv rfl]
  refine ⟨rfl, (by simp), rfl, (by simp)⟩

/-- C3 amended: when the artifact repository is empty, artifact selection
raises `IndexError` (not `NotFoundError`), the run halts at the Selecting
stage, no configuration file is written, no build is attempted, and the
cluster is untouched. -/
theorem empty_repo_halts_at_selecting (env : Env) (h : env.repoListing = []) :
    (run_pipeline env).halt = some (Stage.selecting, ErrKind.indexError) ∧
    (run_pipeline env).attempted = [Stage.selecting] ∧
    (run_pipeline env).envFileWritten = false ∧
    (run_pipeline env).pushAttempts = 0 ∧
    (run_pipeline env).clusterAfter = env.cluster := by
  rw [run_pipeline_of_empty env h]
  exact ⟨rfl, rfl, rfl, rfl, rfl⟩

/-- Witness for `empty_repo_halts_at_selecting` at the concrete
empty-repository environment. -/
theorem empty_repo_halts_at_selecting_witness :
    (run_pipeline emptyRepoEnv).halt = some (Stage.selecting, ErrKind.indexError) ∧
    (run_pipeline emptyRepoEnv).attempted = [Stage.selecting] ∧
    (run_pipeline emptyRepoEnv).envFileWritten = false ∧
    (run_pipeline emptyRepoEnv).pushAttempts = 0 ∧
    (run_pipeline emptyRepoEnv).clusterAfter = emptyRepoEnv.cluster :=
  empty_repo_halts_at_selecting emptyRepoEnv rfl

/-- C4 counterexample: for the artifact the notebook's sample run selects,
the copy step is a single plain `cp` — it matches neither atomic-replace
pattern (whatever source path one reads it against), and its source operand
is the bare entry name, which differs from the selected artifact's path
inside the repository.  The file `cp` is asked to copy is therefore not the
repository's artifact at all. -/
theorem artifact_copy_not_atomic_replace :
    ¬ atomicReplaceOps (repoPathOf "titanic-ml-2019-02-11T17:48:28.joblib") model_dest
        (copy_model_ops "titanic-ml-2019-02-11T17:48:28.joblib") ∧
    ¬ atomicReplaceOps "titanic-ml-2019-02-11T17:48:28.joblib" model_dest
        (copy_model_ops "titanic-ml-2019-02-11T17:48:28.joblib") ∧
    "titanic-ml-2019-02-11T17:48:28.joblib" ≠
      repoPathOf "titanic-ml-2019-02-11T17:48:28.joblib" := by
  refine ⟨?_, ?_, (by decide)⟩ <;>
    (rintro (h | ⟨tmp, h⟩) <;> simp [copy_model_ops] at h)

/-- C4 amended: the copy of the selected artifact is a single plain `cp`
spawned through `os.popen` — not a remove-then-copy, not a
copy-to-temp-then-rename — whose exit status the run never reads (the run's
trace is the same whether the copy succeeds or fails), and its source
operand is the bare entry name, never equal to the selected artifact's path
under `MODEL_REPOSITORY`, so the file placed at the fixed destination is
not taken from the repository. -/
theorem artifact_copy_is_single_plain_cp (m : String) :
    copy_model_ops m = [ShellOp.copyFile m model_dest] ∧
    cp_command m = "cp " ++ m ++ " " ++ model_dest ∧
    repoPathOf m ≠ m ∧
    ∀ env : Env, ∀ b₁ b₂ : Bool,
      run_pipeline { env with cpExit := b₁ } = run_pipeline { env with cpExit := b₂ } := by
  refine ⟨rfl, rfl, ?_, ?_⟩
  · intro h
    have hl := congrArg String.length h
    rw [repoPathOf, String.length_append, String.length_append] at hl
    have h9 : (MODEL_REPOSITORY.length : Nat) = 9 := rfl
    have h1 : (("/" : String).length : Nat) = 1 := rfl
    omega
  · intro env b₁ b₂
    rfl

/-- C5: the `.env` write opens the file in mode `'w'` (truncate), so the
materialized configuration is completely independent of any prior contents
— no key from a previous run can survive — and two materializations with
identical inputs produce byte-identical contents; at the notebook's
configured inputs the file is exactly the two expected lines. -/
theorem env_write_overwrites_completely :
    (∀ p₁ p₂ service api, write_env_file p₁ service api = write_env_file p₂ service api) ∧
    (∀ p service api,
      write_env_file p service api = "SERVICE_NAME=" ++ service ++ "\n" ++ "API_VERSION=" ++ api ++ "\n") ∧
    (∀ p, write_env_file p SERVICE_NAME API_VERSION = "SERVICE_NAME=titanic\nAPI_VERSION=1\n") := by
  refine ⟨fun _ _ _ _ => rfl, fun _ service api => ?_, fun _ => rfl⟩
  simp [write_env_file, env_file_lines, String.join, String.append_assoc]
  congr 1

/-- C6 counterexample: in the run over `authFailEnv` the push is rejected
for missing credentials, so the Publishing stage fails in the spec's sense
— yet the run raises no `PublishError` (it completes), makes exactly one
push attempt (no retry), and still goes on to attempt Deploying. -/
theorem auth_failure_not_surfaced :
    stage_fails authFailEnv Stage.publishing = true ∧
    (run_pipeline authFailEnv).halt = none ∧
    (run_pipeline authFailEnv).pushAttempts = 1 ∧
    Stage.deploying ∈ (run_pipeline authFailEnv).attempted := by
  have he := run_pipeline_success authFailEnv (by simp [authFailEnv, baseEnv]) rfl rfl
  rw [he]
  refine ⟨rfl, rfl, rfl, (by simp [all_stages])⟩

/-- C6 amended: `images.push` is called exactly once per run — there is no
retry and no backoff — and its outcome is never inspected: the log string
is printed, no digest comparison happens, no `PublishError` (or any other
error) is raised, and the whole run trace is identical whatever the push
outcome is, digest mismatches included. -/
theorem push_called_once_and_never_inspected (env : Env) :
    (run_pipeline env).pushAttempts ≤ 1 ∧
    (∀ r₁ r₂ : PushResult,
      run_pipeline { env with pushResult := r₁ } = run_pipeline { env with pushResult := r₂ }) ∧
    (∀ d₁ d₂ : String,
      run_pipeline { env with localDigest := d₁ } = run_pipeline { env with localDigest := d₂ }) := by
  refine ⟨?_, fun _ _ => rfl, fun _ _ => rfl⟩
  by_cases hrepo : env.repoListing = []
  · rw [run_pipeline_of_empty env hrepo]
    exact Nat.zero_le 1
  · by_cases hw : env.envWritable = false
    · rw [run_pipeline_of_unwritable env hrepo hw]
      exact Nat.zero_le 1
    · by_cases hb : env.buildOk = false
      · rw [run_pipeline_of_buildfail env hrepo (by revert hw; cases env.envWritable <;> simp) hb]
        exact Nat.zero_le 1
      · rw [run_pipeline_success env hrepo (by revert hw; cases env.envWritable <;> simp)
          (by revert hb; cases env.buildOk <;> simp)]

/-- Every run's trace is one of exactly four shapes: halted at Selecting,
halted at Configuring, halted at Building, or completed. -/
theorem run_trace_cases (env : Env) :
    run_pipeline env =
      { attempted := [Stage.selecting]
        halt := some (Stage.selecting, ErrKind.indexError)
        envFileWritten := false, pushAttempts := 0, clusterAfter := env.cluster
        requestURL := none, requestBody := none } ∨
    run_pipeline env =
      { attempted := [Stage.selecting, Stage.configuring]
        halt := some (Stage.configuring, ErrKind.ioError)
        envFileWritten := false, pushAttempts := 0, clusterAfter := env.cluster
        requestURL := none, requestBody := none } ∨
    run_pipeline env =
      { attempted := [Stage.selecting, Stage.configuring, Stage.building]
        halt := some (Stage.building, ErrKind.buildError)
        envFileWritten := true, pushAttempts := 0, clusterAfter := env.cluster
        requestURL := none, requestBody := none } ∨
    run_pipeline env =
      { attempted := all_stages
        halt := none
        envFileWritten := true, pushAttempts := 1
        clusterAfter := deploy_stage env.cluster env.freshReleaseName
        requestURL := some verify_url, requestBody := some sample_payload } := by
  by_cases hrepo : env.repoListing = []
  · exact Or.inl (run_pipeline_of_empty env hrepo)
  · by_cases hw : env.envWritable = false
    · exact Or.inr (Or.inl (run_pipeline_of_unwritable env hrepo hw))
    · by_cases hb : env.buildOk = false
      · exact Or.inr (Or.inr (Or.inl (run_pipeline_of_buildfail env hrepo
          (by revert hw; cases env.envWritable <;> simp) hb)))
      · exact Or.inr (Or.inr (Or.inr (run_pipeline_success env hrepo
          (by revert hw; cases env.envWritable <;> simp)
          (by revert hb; cases env.buildOk <;> simp))))

/-- C7 counterexample: starting from a cluster that already holds the one
release for application name `titanic-survival-prediction` in namespace
`titanic`, running the notebook's deploy step leaves TWO releases for that
pair — `helm install` created a duplicate instead of updating in place. -/
theorem redeploy_duplicates_release :
    (releasesFor busyCluster "titanic-survival-prediction" "titanic").length = 1 ∧
    (releasesFor (deploy_stage busyCluster "second-run-release")
      "titanic-survival-prediction" "titanic").length = 2 := by
  constructor <;> rfl

/-- C7 amended: the deploy step is `helm install` with a generated release
name, never `helm upgrade`: it appends a fresh release and touches none of
the existing ones, so submitting a deployment while a release for the same
application name and namespace is already active leaves at least two
releases for that pair — a duplicate, never an update-in-place. -/
theorem helm_install_never_updates_in_place (cluster : List HelmRelease) (fresh : String)
    (h : ∃ r ∈ cluster, r.appName = "titanic-survival-prediction" ∧ r.appNamespace = "titanic") :
    deploy_stage cluster fresh =
      cluster ++ [{ releaseName := fresh
                    appName := "titanic-survival-prediction"
                    appNamespace := "titanic"
                    appImage := image_tag }] ∧
    2 ≤ (releasesFor (deploy_stage cluster fresh) "titanic-survival-prediction" "titanic").length := by
  refine ⟨rfl, ?_⟩
  obtain ⟨r, hr, h1, h2⟩ := h
  have hrf : r ∈ List.filter
      (fun q : HelmRelease => q.appName == "titanic-survival-prediction" && q.appNamespace == "titanic")
      cluster :=
    List.mem_filter.mpr ⟨hr, by simp [h1, h2]⟩
  have hpos : 0 < (List.filter
      (fun q : HelmRelease => q.appName == "titanic-survival-prediction" && q.appNamespace == "titanic")
      cluster).length :=
    List.length_pos.mpr (List.ne_nil_of_mem hrf)
  have hsplit : releasesFor (deploy_stage cluster fresh) "titanic-survival-prediction" "titanic" =
      List.filter
        (fun q : HelmRelease => q.appName == "titanic-survival-prediction" && q.appNamespace == "titanic")
        cluster ++
      [{ releaseName := fresh
         appName := "titanic-survival-prediction"
         appNamespace := "titanic"
         appImage := image_tag }] := by
    rw [releasesFor, deploy_stage, helm_install, List.filter_append]
    rfl
  rw [hsplit, List.length_append]
  simp only [List.length_singleton]
  omega

/-- Witness for `helm_install_never_updates_in_place` on the concrete
single-release cluster an earlier notebook run leaves behind. -/
theorem helm_install_never_updates_in_place_witness :
    2 ≤ (releasesFor (deploy_stage busyCluster "tufted-bunny")
      "titanic-survival-prediction" "titanic").length :=
  (helm_install_never_updates_in_place busyCluster "tufted-bunny"
    ⟨{ releaseName := "newbie-stingray"
       appName := "titanic-survival-prediction"
       appNamespace := "titanic"
       appImage := "alexioannides/titanic:latest" }, by simp [busyCluster], rfl, rfl⟩).2

/-- C8 counterexample: in the run over `neverReadyEnv` the deployment never
becomes ready, yet the run does not halt at Deploying with a
`ReadinessTimeoutError` — it completes, and the Verifier stage is still
invoked, with the smoke-test request issued. -/
theorem never_ready_still_verifies :
    neverReadyEnv.becomesReady = false ∧
    (run_pipeline neverReadyEnv).halt = none ∧
    Stage.verifying ∈ (run_pipeline neverReadyEnv).attempted ∧
    (run_pipeline neverReadyEnv).requestURL = some verify_url := by
  have he := run_pipeline_success neverReadyEnv (by simp [neverReadyEnv, baseEnv]) rfl rfl
  rw [he]
  refine ⟨rfl, rfl, (by simp [all_stages]), rfl⟩

/-- C8 amended: nothing in the run polls readiness or enforces a timeout:
the whole trace is independent of whether the deployment ever becomes
ready, no stage can fail with `ReadinessTimeoutError`, and whenever the run
attempts the Deploying stage it also attempts Verifying (the smoke test is
issued regardless of readiness). -/
theorem readiness_never_polled (env : Env) :
    (∀ b₁ b₂ : Bool,
      run_pipeline { env with becomesReady := b₁ } = run_pipeline { env with becomesReady := b₂ }) ∧
    (∀ s, (run_pipeline env).halt ≠ some (s, ErrKind.readinessTimeoutError)) ∧
    (Stage.deploying ∈ (run_pipeline env).attempted →
      Stage.verifying ∈ (run_pipeline env).attempted) := by
  refine ⟨fun _ _ => rfl, ?_, ?_⟩
  · intro s hs
    rcases run_trace_cases env with h | h | h | h <;> rw [h] at hs <;> simp at hs
  · intro hdep
    rcases run_trace_cases env with h | h | h | h <;> rw [h] at hdep ⊢ <;>
      simp [all_stages] at hdep ⊢

/-- C9 counterexample: for a 200 response whose body has no `prediction`
key, the Verifying stage has failed in the spec's sense, yet the run does
not report `VerificationError` — it completes with no error at all,
because the curl cell never inspects the response. -/
theorem missing_prediction_key_not_flagged :
    hasPredictionKey "\x7b\"detail\": \"not found\"\x7d" = false ∧
    stage_fails noKeyEnv Stage.verifying = true ∧
    (run_pipeline noKeyEnv).halt = none ∧
    curl_output noKeyEnv.httpResult = "\x7b\"detail\": \"not found\"\x7d" := by
  refine ⟨(by decide), (by decide), ?_, rfl⟩
  rw [run_pipeline_success noKeyEnv (by simp [noKeyEnv, baseEnv]) rfl rfl]

/-- C9 amended: the verifier issues the POST with exactly the notebook's
fixed sample payload and prints the raw response text; it never validates
anything — the run's trace is identical whatever the response is
(connection failure, non-success status, missing `prediction` key, or the
expected body), and no run ever halts with `VerificationError`. -/
theorem verifier_prints_without_validating (env : Env) :
    (∀ r₁ r₂ : HttpResult,
      run_pipeline { env with httpResult := r₁ } = run_pipeline { env with httpResult := r₂ }) ∧
    (∀ s, (run_pipeline env).halt ≠ some (s, ErrKind.verificationError)) ∧
    ((run_pipeline env).halt = none → (run_pipeline env).requestBody = some sample_payload) ∧
    (∀ status body, curl_output (HttpResult.response status body) = body) := by
  refine ⟨fun _ _ => rfl, ?_, ?_, fun _ _ => rfl⟩
  · intro s hs
    rcases run_trace_cases env with h | h | h | h <;> rw [h] at hs <;> simp at hs
  · intro hnone
    rcases run_trace_cases env with h | h | h | h <;> rw [h] at hnone ⊢ <;> simp at hnone ⊢

/-- Witness for `verifier_prints_without_validating` at the baseline run,
discharging the completion hypothesis of the payload component. -/
theorem verifier_prints_without_validating_witness :
    (run_pipeline baseEnv).requestBody = some sample_payload :=
  (verifier_prints_without_validating baseEnv).2.2.1
    (by rw [run_pipeline_success baseEnv (by simp [baseEnv]) rfl rfl])

/-- C10: every run that reaches the smoke test sends it to the constant
address baked into the curl command — `192.168.99.115:31187` — never to an
endpoint resolved from the deployment just created: the URL is the same in
any two completing runs, whatever distinct endpoints their deployments
expose, and the reported endpoint has no influence on the trace at all. -/
theorem verify_request_address_constant (env₁ env₂ : Env)
    (h₁ : (run_pipeline env₁).halt = none) (h₂ : (run_pipeline env₂).halt = none) :
    (run_pipeline env₁).requestURL = some verify_url ∧
    (run_pipeline env₁).requestURL = (run_pipeline env₂).requestURL ∧
    verify_url = "http://192.168.99.115:31187/titanic/v1/predict" ∧
    (∀ env : Env, ∀ e₁ e₂ : String,
      run_pipeline { env with reportedEndpoint := e₁ } =
        run_pipeline { env with reportedEndpoint := e₂ }) := by
  have u₁ : (run_pipeline env₁).requestURL = some verify_url := by
    rcases run_trace_cases env₁ with h | h | h | h <;> rw [h] at h₁ ⊢ <;> simp at h₁ ⊢
  have u₂ : (run_pipeline env₂).requestURL = some verify_url := by
    rcases run_trace_cases env₂ with h | h | h | h <;> rw [h] at h₂ ⊢ <;> simp at h₂ ⊢
  exact ⟨u₁, by rw [u₁, u₂], rfl, fun _ _ _ => rfl⟩

/-- Witness for `verify_request_address_constant`: two completing runs whose
deployments expose different endpoints still address the same fixed URL. -/
theorem verify_request_address_constant_witness :
    (run_pipeline baseEnv).requestURL = some verify_url ∧
    (run_pipeline baseEnv).requestURL =
      (run_pipeline { baseEnv with reportedEndpoint := "10.96.0.7:30500" }).requestURL ∧
    verify_url = "http://192.168.99.115:31187/titanic/v1/predict" ∧
    (∀ env : Env, ∀ e₁ e₂ : String,
      run_pipeline { env with reportedEndpoint := e₁ } =
        run_pipeline { env with reportedEndpoint := e₂ }) :=
  verify_request_address_constant baseEnv { baseEnv with reportedEndpoint := "10.96.0.7:30500" }
    (by rw [run_pipeline_success baseEnv (by simp [baseEnv]) rfl rfl])
    (by rw [run_pipeline_success _ (by simp [baseEnv]) rfl rfl])

/-- Witness instance for `artifact_copy_is_single_plain_cp` at the artifact
name from the notebook's sample run. -/
theorem artifact_copy_is_single_plain_cp_witness :
    copy_model_ops "titanic-ml-2019-02-11T17:48:28.joblib" =
      [ShellOp.copyFile "titanic-ml-2019-02-11T17:48:28.joblib" model_dest] ∧
    repoPathOf "titanic-ml-2019-02-11T17:48:28.joblib" ≠ "titanic-ml-2019-02-11T17:48:28.joblib" :=
  ⟨(artifact_copy_is_single_plain_cp "titanic-ml-2019-02-11T17:48:28.joblib").1,
   (artifact_copy_is_single_plain_cp "titanic-ml-2019-02-11T17:48:28.joblib").2.2.1⟩

/-- Witness instance for `env_write_overwrites_completely`: a stale file
from a previous run is fully replaced. -/
theorem env_write_overwrites_completely_witness :
    write_env_file "SERVICE_NAME=old\nSTALE_KEY=1\n" SERVICE_NAME API_VERSION =
      "SERVICE_NAME=titanic\nAPI_VERSION=1\n" :=
  env_write_overwrites_completely.2.2 "SERVICE_NAME=old\nSTALE_KEY=1\n"

/-- Witness instance for `push_called_once_and_never_inspected` at the
baseline environment. -/
theorem push_called_once_and_never_inspected_witness :
    (run_pipeline baseEnv).pushAttempts ≤ 1 :=
  (push_called_once_and_never_inspected baseEnv).1

/-- Witness instance for `readiness_never_polled`: the baseline run's trace
is unchanged when readiness is flipped off. -/
theorem readiness_never_polled_witness :
    run_pipeline { baseEnv with becomesReady := true } =
      run_pipeline { baseEnv with becomesReady := false } :=
  (readiness_never_polled baseEnv).1 true false
